import Mathlib

/-
Verification of the device-session tracking logic of the Livebox Play TV
media-player integration (src/homeassistant/components/liveboxplaytv/media_player.py).

The embedding models one `LiveboxPlayTvDevice` instance as a `TrackerState`
record, and one poll as a pure function of the tracker state together with a
`DevicePoll` record describing what every device/client call performed during
that poll would return (or which exception it would raise).  Python exceptions
are modelled by the `Exc` type; each fallible client call is an
`Except Exc _` value.  The `try ... except requests.ConnectionError` wrapping
the body of `async_update` is modelled by running the body as a function that
returns the partially mutated state together with the exception that escaped
it (Python mutates `self` in place, so mutations made before the exception
persist), then handling `Exc.connErr` exactly as line 112-113 of the source do.
-/

namespace LiveboxPlayTv

/-- Python exceptions relevant to the tracker: `requests.ConnectionError`
(the only class caught in `async_update`) versus any other exception. -/
inductive Exc
  | connErr
  | other
deriving DecidableEq, Repr

/-- Playback states (the `STATE_*` string constants used by the source).
`self._state = None` (the failure / unknown value) is modelled by `none`
at `Option PState`. -/
inductive PState
  | off
  | on
  | playing
  | paused
deriving DecidableEq, Repr

/-- Program metadata as consumed by `async_update`: `program.get('name')`,
`pyteleloisirs.get_program_duration(program)` and
`pyteleloisirs.get_remaining_time(program)` are modelled as fields. -/
structure Program where
  name : Option String
  duration : Option Int
  remaining : Option Int
deriving DecidableEq, Repr

/-- The mutable fields of `LiveboxPlayTvDevice` (lines 66-77 of the source).
The channel-list dict maps integer channel index to channel name; it is kept
as an insertion-ordered association list with unique keys, exactly the
observable content of a Python dict. -/
structure TrackerState where
  muted : Bool
  name : String
  currentSource : Option String
  state : Option PState
  channelList : List (Int × String)
  currentChannel : Option String
  currentProgram : Option String
  mediaDuration : Option Int
  mediaRemainingTime : Option Int
  mediaImageUrl : Option String
  mediaLastUpdated : Option Int
deriving DecidableEq, Repr

/-- The fixed artwork target size used on line 103 of the source. -/
def img_size : Int := 800

/-- What every device/client call made during one invocation of
`async_update` would return, or which exception it would raise.  The two
image lookups take the requested image size, as the client calls do.
`now` is the value `dt_util.utcnow()` would produce during this poll. -/
structure DevicePoll where
  mediaState : Except Exc String
  isOn : Except Exc Bool
  channels : Except Exc (List (Int × String))
  channel : Except Exc (Option String)
  program : Except Exc (Option Program)
  programImage : Int → Except Exc (Option String)
  channelImage : Int → Except Exc (Option String)
  now : Int

/-- Python truthiness of an optional string (`if prg_img_url:` on line 106):
`None` and the empty string are falsy. -/
def pyTruthy : Option String → Bool
  | none => false
  | some s => !s.isEmpty

/-- Dict assignment `d[k] = v`: overwrite the value if the key is present,
otherwise append the binding (Python dicts preserve insertion order). -/
def dictInsert (d : List (Int × String)) (k : Int) (v : String) :
    List (Int × String) :=
  if d.any (fun p => p.1 == k) then
    d.map (fun p => if p.1 == k then (k, v) else p)
  else
    d ++ [(k, v)]

/-- Dict lookup `d[k]` for a key known to be present (first matching
binding; keys are unique so this is the binding). -/
def dictGet (d : List (Int × String)) (k : Int) : String :=
  match d.find? (fun p => p.1 == k) with
  | some p => p.2
  | none => ""

/-- Keys of the channel-list dict. -/
def dictKeys (d : List (Int × String)) : List Int :=
  d.map Prod.fst

/-- `refresh_channel_list` (lines 185-191): build a fresh dict from the
device catalog, assigning `new_channel_list[int(channel['index'])] =
channel['name']` for each catalog entry in order.  The catalog is given
with its indices already converted to integers. -/
def refresh_channel_list (catalog : List (Int × String)) :
    List (Int × String) :=
  catalog.foldl (fun acc c => dictInsert acc c.1 c.2) []

/-- `refresh_state` (lines 193-201): read `self._client.media_state`;
on 'PLAY' return playing, on 'PAUSE' return paused, otherwise read
`self._client.is_on` and return on/off accordingly.  Either client read
may raise. -/
def refresh_state (d : DevicePoll) : Except Exc PState :=
  match d.mediaState with
  | Except.error e => Except.error e
  | Except.ok st =>
      if st = "PLAY" then Except.ok PState.playing
      else if st = "PAUSE" then Except.ok PState.paused
      else
        match d.isOn with
        | Except.error e => Except.error e
        | Except.ok o => Except.ok (if o then PState.on else PState.off)

/-- The update of program name / duration / remaining time / timestamp
performed on lines 92-100, given the fetched `program` (or `None`) and the
current wall-clock time.  The remaining-time comparison and the timestamp
update are nested inside the name-change branch, exactly as in the source. -/
def programUpdate (s : TrackerState) (prog : Option Program) (now : Int) :
    TrackerState :=
  match prog with
  | none => s
  | some p =>
      if s.currentProgram ≠ p.name then
        let s' := { s with currentProgram := p.name, mediaDuration := p.duration }
        if p.remaining ≠ s.mediaRemainingTime then
          { s' with mediaRemainingTime := p.remaining,
                    mediaLastUpdated := some now }
        else s'
      else s

/-- The body of `async_update` (lines 83-111), without the surrounding
`try/except`: every step runs in order, mutating the tracker state; the
first exception aborts the rest.  The result is the state after the
mutations that did happen, together with the exception that escaped the
body, if any. -/
def asyncUpdateBody (s : TrackerState) (d : DevicePoll) :
    TrackerState × Option Exc :=
  match refresh_state d with
  | Except.error e => (s, some e)
  | Except.ok st =>
      let s := { s with state := some st }
      match d.channels with
      | Except.error e => (s, some e)
      | Except.ok cat =>
          let s := { s with channelList := refresh_channel_list cat }
          match d.channel with
          | Except.error e => (s, some e)
          | Except.ok none => (s, none)
          | Except.ok (some c) =>
              let s := { s with currentChannel := some c }
              match d.program with
              | Except.error e => (s, some e)
              | Except.ok prog =>
                  let s := programUpdate s prog d.now
                  match d.programImage img_size with
                  | Except.error e => (s, some e)
                  | Except.ok pi =>
                      if pyTruthy pi then
                        ({ s with mediaImageUrl := pi }, none)
                      else
                        match d.channelImage img_size with
                        | Except.error e => (s, some e)
                        | Except.ok ci =>
                            ({ s with mediaImageUrl := ci }, none)

/-- `async_update` (lines 79-113): run the body under
`try ... except requests.ConnectionError: self._state = None`.
A `connErr` escaping the body is caught and turns the state field to
`None`; any other exception propagates to the caller.  The first component
is the tracker state after the call (Python mutates `self` in place, so it
is observable even when an exception propagates). -/
def async_update (s : TrackerState) (d : DevicePoll) :
    TrackerState × Option Exc :=
  match asyncUpdateBody s d with
  | (s', none) => (s', none)
  | (s', some Exc.connErr) => ({ s' with state := none }, none)
  | (s', some Exc.other) => (s', some Exc.other)

/-- The `source` property (lines 130-133): returns `self._current_channel`. -/
def source (s : TrackerState) : Option String :=
  s.currentChannel

/-- The `source_list` property (lines 135-140): channel names listed by
sorted channel index (`sorted(self._channel_list.keys())`, ascending). -/
def source_list (s : TrackerState) : List String :=
  ((dictKeys s.channelList).mergeSort (fun a b => a ≤ b)).map
    (fun k => dictGet s.channelList k)

/-- `turn_off` (lines 203-206): set `self._state = STATE_OFF`, then call
`self._client.turn_off()`, whose outcome (`none` for success, `some e` for
a raised exception) is the second argument.  The mutation precedes the
client call, so it happens even when the call raises. -/
def turn_off (s : TrackerState) (dev : Option Exc) :
    TrackerState × Option Exc :=
  let s := { s with state := some PState.off }
  (s, dev)

/-- `turn_on` (lines 208-211): set `self._state = STATE_ON`, then call
`self._client.turn_on()`. -/
def turn_on (s : TrackerState) (dev : Option Exc) :
    TrackerState × Option Exc :=
  let s := { s with state := some PState.on }
  (s, dev)

/-- `mute_volume` (lines 221-224): set `self._muted = mute`, then call
`self._client.mute()`. -/
def mute_volume (s : TrackerState) (mute : Bool) (dev : Option Exc) :
    TrackerState × Option Exc :=
  let s := { s with muted := mute }
  (s, dev)

/-- `select_source` (lines 230-233): set `self._current_source = source`,
then call `self._client.set_channel(source)`. -/
def select_source (s : TrackerState) (src : String) (dev : Option Exc) :
    TrackerState × Option Exc :=
  let s := { s with currentSource := some src }
  (s, dev)

/-- `media_play` (lines 235-238): set `self._state = STATE_PLAYING`, then
call `self._client.play()`. -/
def media_play (s : TrackerState) (dev : Option Exc) :
    TrackerState × Option Exc :=
  let s := { s with state := some PState.playing }
  (s, dev)

/-- `media_pause` (lines 240-243): set `self._state = STATE_PAUSED`, then
call `self._client.pause()`. -/
def media_pause (s : TrackerState) (dev : Option Exc) :
    TrackerState × Option Exc :=
  let s := { s with state := some PState.paused }
  (s, dev)

/-- The field initialisation performed by the constructor (lines 62-77):
mute assumed false, no state, empty channel dict, all media fields unset. -/
def initState (name : String) : TrackerState :=
  { muted := false, name := name, currentSource := none, state := none,
    channelList := [], currentChannel := none, currentProgram := none,
    mediaDuration := none, mediaRemainingTime := none,
    mediaImageUrl := none, mediaLastUpdated := none }

/- Helper lemmas characterising one poll under explicit outcomes of the
client calls.  They are shared by several of the claim theorems below. -/

theorem asyncUpdate_ok_channel (s : TrackerState) (d : DevicePoll)
    (st : PState) (cat : List (Int × String)) (c : String)
    (prog : Option Program) (pi : Option String)
    (h1 : refresh_state d = Except.ok st)
    (h2 : d.channels = Except.ok cat)
    (h3 : d.channel = Except.ok (some c))
    (h4 : d.program = Except.ok prog)
    (h5 : d.programImage img_size = Except.ok pi)
    (h6 : pyTruthy pi = true) :
    async_update s d =
      ({ programUpdate
           { s with state := some st,
                    channelList := refresh_channel_list cat,
                    currentChannel := some c } prog d.now
         with mediaImageUrl := pi }, none) := by
  simp [async_update, asyncUpdateBody, h1, h2, h3, h4, h5, h6]

theorem asyncUpdate_ok_channel_fallback (s : TrackerState) (d : DevicePoll)
    (st : PState) (cat : List (Int × String)) (c : String)
    (prog : Option Program) (pi ci : Option String)
    (h1 : refresh_state d = Except.ok st)
    (h2 : d.channels = Except.ok cat)
    (h3 : d.channel = Except.ok (some c))
    (h4 : d.program = Except.ok prog)
    (h5 : d.programImage img_size = Except.ok pi)
    (h6 : pyTruthy pi = false)
    (h7 : d.channelImage img_size = Except.ok ci) :
    async_update s d =
      ({ programUpdate
           { s with state := some st,
                    channelList := refresh_channel_list cat,
                    currentChannel := some c } prog d.now
         with mediaImageUrl := ci }, none) := by
  simp [async_update, asyncUpdateBody, h1, h2, h3, h4, h5, h6, h7]

theorem dictKeys_map_overwrite (d : List (Int × String)) (k : Int) (v : String) :
    dictKeys (d.map (fun p => if p.1 == k then (k, v) else p)) = dictKeys d := by
  simp only [dictKeys, List.map_map]
  apply List.map_congr_left
  intro p hp
  by_cases hpk : p.1 = k
  · simp [hpk]
  · simp [hpk]

theorem nodup_keys_dictInsert (d : List (Int × String)) (k : Int) (v : String)
    (h : (dictKeys d).Nodup) : (dictKeys (dictInsert d k v)).Nodup := by
  unfold dictInsert
  by_cases hany : d.any (fun p => p.1 == k) = true
  · rw [if_pos hany, dictKeys_map_overwrite]
    exact h
  · rw [if_neg hany]
    have hk : k ∉ dictKeys d := by
      intro hmem
      apply hany
      rw [List.any_eq_true]
      rcases List.mem_map.mp hmem with ⟨p, hp, hpk⟩
      exact ⟨p, hp, by simp [hpk]⟩
    simp only [dictKeys, List.map_append, List.map_cons, List.map_nil]
    rw [List.nodup_append]
    refine ⟨h, List.nodup_singleton k, ?_⟩
    intro a ha hb
    rcases List.mem_singleton.mp hb with rfl
    exact hk ha

theorem nodup_keys_foldl (catalog : List (Int × String))
    (acc : List (Int × String)) (h : (dictKeys acc).Nodup) :
    (dictKeys (catalog.foldl (fun a c => dictInsert a c.1 c.2) acc)).Nodup := by
  induction catalog generalizing acc with
  | nil => exact h
  | cons c cs ih => exact ih _ (nodup_keys_dictInsert _ _ _ h)

theorem nodup_keys_refresh_channel_list (catalog : List (Int × String)) :
    (dictKeys (refresh_channel_list catalog)).Nodup :=
  nodup_keys_foldl catalog [] List.nodup_nil

/- Concrete states and polls used by witnesses and counterexamples. -/

/-- A poll whose very first client read (the media-state query inside
`refresh_state`) raises `requests.ConnectionError`. -/
def pollStateQueryFails : DevicePoll :=
  { mediaState := Except.error Exc.connErr, isOn := Except.ok true,
    channels := Except.ok [], channel := Except.ok none,
    program := Except.ok none, programImage := fun _ => Except.ok none,
    channelImage := fun _ => Except.ok none, now := 0 }

/-- A poll in which step 1 succeeds but the channel-list rebuild (step 2)
raises `requests.ConnectionError`. -/
def pollChannelsConnErr : DevicePoll :=
  { mediaState := Except.ok "PLAY", isOn := Except.ok true,
    channels := Except.error Exc.connErr, channel := Except.ok none,
    program := Except.ok none, programImage := fun _ => Except.ok none,
    channelImage := fun _ => Except.ok none, now := 0 }

/-- Program metadata with name News, duration 1800 and remaining time 300. -/
def progNews300 : Program :=
  { name := some "News", duration := some 1800, remaining := some 300 }

/-- Program metadata with name Film, duration 5400 and remaining time 900. -/
def progFilm900 : Program :=
  { name := some "Film", duration := some 5400, remaining := some 900 }

/-- A tracker that has already seen program News with remaining time 900
and position timestamp 10 on channel 5. -/
def sNews : TrackerState :=
  { (initState "livebox") with
    currentChannel := some "5",
    currentProgram := some "News",
    mediaDuration := some 1800,
    mediaRemainingTime := some 900,
    mediaLastUpdated := some 10 }

/-- A fully successful poll that reports the same program name News but a
different remaining time (300 instead of 900). -/
def pollSameName : DevicePoll :=
  { mediaState := Except.ok "PLAY", isOn := Except.ok true,
    channels := Except.ok [(5, "Five")], channel := Except.ok (some "5"),
    program := Except.ok (some progNews300),
    programImage := fun _ => Except.ok (some "img"),
    channelImage := fun _ => Except.ok none, now := 99 }

/-- A fully successful poll that reports a new program name Film with the
same remaining time 900 the tracker already stores. -/
def pollNewName : DevicePoll :=
  { mediaState := Except.ok "PLAY", isOn := Except.ok true,
    channels := Except.ok [(5, "Five")], channel := Except.ok (some "5"),
    program := Except.ok (some progFilm900),
    programImage := fun _ => Except.ok (some "img"),
    channelImage := fun _ => Except.ok none, now := 99 }

/-- A tracker whose last polled channel is 3. -/
def sChannel3 : TrackerState :=
  { (initState "livebox") with currentChannel := some "3" }

/-- An example device catalog returned out of index order. -/
def catalogEx : List (Int × String) :=
  [(5, "Five"), (2, "Two"), (9, "Nine")]

/-- A poll reporting media state PLAY while the power read would raise:
the power flag is never consulted on the PLAY branch. -/
def pollPlayNoPowerRead : DevicePoll :=
  { mediaState := Except.ok "PLAY", isOn := Except.error Exc.other,
    channels := Except.ok [], channel := Except.ok none,
    program := Except.ok none, programImage := fun _ => Except.ok none,
    channelImage := fun _ => Except.ok none, now := 0 }

/-- A poll reporting media state STOP with the device powered off. -/
def pollStopPowerOff : DevicePoll :=
  { mediaState := Except.ok "STOP", isOn := Except.ok false,
    channels := Except.ok [], channel := Except.ok none,
    program := Except.ok none, programImage := fun _ => Except.ok none,
    channelImage := fun _ => Except.ok none, now := 0 }

/-- C1: if the initial power/playback-state query of a poll raises a
connectivity error, the poll sets the playback state to UNKNOWN (None) and
returns normally with the channel list, current channel, program name,
media duration, media remaining time, artwork URL and last-update
timestamp all equal to their pre-poll values. -/
theorem poll_connErr_on_state_query (s : TrackerState) (d : DevicePoll)
    (h : refresh_state d = Except.error Exc.connErr) :
    (async_update s d).1.state = none ∧
    (async_update s d).2 = none ∧
    (async_update s d).1.channelList = s.channelList ∧
    (async_update s d).1.currentChannel = s.currentChannel ∧
    (async_update s d).1.currentProgram = s.currentProgram ∧
    (async_update s d).1.mediaDuration = s.mediaDuration ∧
    (async_update s d).1.mediaRemainingTime = s.mediaRemainingTime ∧
    (async_update s d).1.mediaImageUrl = s.mediaImageUrl ∧
    (async_update s d).1.mediaLastUpdated = s.mediaLastUpdated := by
  simp [async_update, asyncUpdateBody, h]

/-- Witness for C1 at a concrete tracker and a poll whose media-state read
raises a connectivity error. -/
theorem poll_connErr_on_state_query_witness :
    refresh_state pollStateQueryFails = Except.error Exc.connErr ∧
    (async_update (initState "livebox") pollStateQueryFails).1.state = none ∧
    (async_update (initState "livebox") pollStateQueryFails).2 = none :=
  ⟨rfl,
   (poll_connErr_on_state_query (initState "livebox") pollStateQueryFails rfl).1,
   (poll_connErr_on_state_query (initState "livebox") pollStateQueryFails rfl).2.1⟩

/-- C2 counterexample: a connectivity error raised in step 2 (the
channel-list rebuild) does NOT propagate to the caller: the handler that
wraps the whole poll body catches it and sets the state to UNKNOWN, so the
poll returns normally, refuting the claim that only step 1 is guarded. -/
theorem poll_step2_connErr_is_caught :
    pollChannelsConnErr.channels = Except.error Exc.connErr ∧
    (async_update (initState "livebox") pollChannelsConnErr).2 = none ∧
    (async_update (initState "livebox") pollChannelsConnErr).1.state = none :=
  ⟨rfl, rfl, rfl⟩

/-- C2 (amended): the try/except wraps the whole poll body, so a
connectivity error raised during ANY step (1-5) is caught and turns the
playback state to UNKNOWN while keeping the mutations made before the
error; connectivity errors never propagate to the caller, and only
non-connectivity exceptions do. -/
theorem poll_connErr_always_caught (s : TrackerState) (d : DevicePoll) :
    ((asyncUpdateBody s d).2 = some Exc.connErr →
      async_update s d = ({ (asyncUpdateBody s d).1 with state := none }, none)) ∧
    ((asyncUpdateBody s d).2 = some Exc.other →
      async_update s d = ((asyncUpdateBody s d).1, some Exc.other)) ∧
    (∀ e : Exc, (async_update s d).2 = some e → e = Exc.other) := by
  rcases hb : asyncUpdateBody s d with ⟨s', oe⟩
  refine ⟨?_, ?_, ?_⟩
  · intro h
    simp only [hb] at h ⊢
    subst h
    simp [async_update, hb]
  · intro h
    simp only [hb] at h ⊢
    subst h
    simp [async_update, hb]
  · intro e he
    rcases oe with _ | e'
    · simp [async_update, hb] at he
    · rcases e' with _ | _
      · simp [async_update, hb] at he
      · simp [async_update, hb] at he
        exact he.symm

/-- Witness for the amended C2 at a concrete poll whose step 2 raises a
connectivity error. -/
theorem poll_connErr_always_caught_witness :
    (asyncUpdateBody (initState "livebox") pollChannelsConnErr).2
      = some Exc.connErr ∧
    async_update (initState "livebox") pollChannelsConnErr
      = ({ (asyncUpdateBody (initState "livebox") pollChannelsConnErr).1 with
           state := none }, none) :=
  ⟨rfl,
   (poll_connErr_always_caught (initState "livebox") pollChannelsConnErr).1 rfl⟩

/-- C4 counterexample: selecting source 5 on a tracker whose last polled
channel is 3 leaves the source view at 3: the command writes only the
separate current-source field, not the current-channel field that the
source view exposes. -/
theorem select_source_leaves_source_view :
    source (select_source sChannel3 "5" none).1 = some "3" ∧
    source (select_source sChannel3 "5" none).1 ≠ some "5" := by
  refine ⟨rfl, ?_⟩
  intro h
  simp [source, select_source, sChannel3, initState] at h

/-- C4 (amended): select_source stores the chosen channel identifier in
the separate current-source field (which no view exposes) and issues the
tune-channel device call; the current-channel field backing the source
view is left unchanged, so the source view is not optimistically updated. -/
theorem select_source_sets_current_source_only (s : TrackerState)
    (src : String) (dev : Option Exc) :
    (select_source s src dev).1.currentSource = some src ∧
    (select_source s src dev).1.currentChannel = s.currentChannel ∧
    source (select_source s src dev).1 = source s ∧
    (select_source s src dev).2 = dev :=
  ⟨rfl, rfl, rfl, rfl⟩

/-- C5: the state derived from a successful step-1 query is PLAYING on
media state PLAY (regardless of the power flag, which is not even read),
PAUSED on PAUSE, and otherwise ON when the power flag is true and OFF when
it is false. -/
theorem refresh_state_derivation (d : DevicePoll) :
    (d.mediaState = Except.ok "PLAY" →
      refresh_state d = Except.ok PState.playing) ∧
    (d.mediaState = Except.ok "PAUSE" →
      refresh_state d = Except.ok PState.paused) ∧
    (∀ ms : String, d.mediaState = Except.ok ms → ms ≠ "PLAY" →
      ms ≠ "PAUSE" → d.isOn = Except.ok true →
      refresh_state d = Except.ok PState.on) ∧
    (∀ ms : String, d.mediaState = Except.ok ms → ms ≠ "PLAY" →
      ms ≠ "PAUSE" → d.isOn = Except.ok false →
      refresh_state d = Except.ok PState.off) := by
  refine ⟨?_, ?_, ?_, ?_⟩
  · intro h
    simp [refresh_state, h]
  · intro h
    simp [refresh_state, h]
  · intro ms h hp hq hon
    simp [refresh_state, h, hp, hq, hon]
  · intro ms h hp hq hon
    simp [refresh_state, h, hp, hq, hon]

/-- Witness for C5: PLAY yields PLAYING even though the power read would
raise, and STOP with power off yields OFF. -/
theorem refresh_state_derivation_witness :
    refresh_state pollPlayNoPowerRead = Except.ok PState.playing ∧
    refresh_state pollStopPowerOff = Except.ok PState.off :=
  ⟨(refresh_state_derivation pollPlayNoPowerRead).1 rfl,
   (refresh_state_derivation pollStopPowerOff).2.2.2 "STOP" rfl
     (by decide) (by decide) rfl⟩

/-- C10: for turn_off, turn_on, media_play, media_pause and mute_volume,
the optimistic local update is applied before the device call, so even
when the device call raises, the local state holds the optimistic value
and the exception propagates (the command is not atomic). -/
theorem commands_optimistic_before_device_call (s : TrackerState)
    (e : Exc) (b : Bool) :
    ((turn_off s (some e)).1.state = some PState.off ∧
      (turn_off s (some e)).2 = some e) ∧
    ((turn_on s (some e)).1.state = some PState.on ∧
      (turn_on s (some e)).2 = some e) ∧
    ((media_play s (some e)).1.state = some PState.playing ∧
      (media_play s (some e)).2 = some e) ∧
    ((media_pause s (some e)).1.state = some PState.paused ∧
      (media_pause s (some e)).2 = some e) ∧
    ((mute_volume s b (some e)).1.muted = b ∧
      (mute_volume s b (some e)).2 = some e) :=
  ⟨⟨rfl, rfl⟩, ⟨rfl, rfl⟩, ⟨rfl, rfl⟩, ⟨rfl, rfl⟩, ⟨rfl, rfl⟩⟩

/-- Program metadata with name Doc, duration 2700 and remaining time 450. -/
def progDoc450 : Program :=
  { name := some "Doc", duration := some 2700, remaining := some 450 }

/-- A fully successful poll that reports a new program name Doc with a
remaining time (450) that differs from the stored one (900). -/
def pollNewTime : DevicePoll :=
  { mediaState := Except.ok "PLAY", isOn := Except.ok true,
    channels := Except.ok [(5, "Five")], channel := Except.ok (some "5"),
    program := Except.ok (some progDoc450),
    programImage := fun _ => Except.ok (some "img"),
    channelImage := fun _ => Except.ok none, now := 99 }

/-- A successful poll in which the device reports no tuned channel. -/
def pollNullChannel : DevicePoll :=
  { mediaState := Except.ok "PLAY", isOn := Except.ok true,
    channels := Except.ok [(5, "Five")], channel := Except.ok none,
    program := Except.ok none, programImage := fun _ => Except.ok none,
    channelImage := fun _ => Except.ok none, now := 99 }

/-- A fully successful poll with no program thumbnail available: the
program image lookup returns None, the channel logo lookup returns a URL. -/
def pollNoProgImg : DevicePoll :=
  { mediaState := Except.ok "PLAY", isOn := Except.ok true,
    channels := Except.ok [(5, "Five")], channel := Except.ok (some "5"),
    program := Except.ok (some progNews300),
    programImage := fun _ => Except.ok none,
    channelImage := fun _ => Except.ok (some "chan.png"), now := 99 }

/-- C3 counterexample: a successful poll whose fetched program has the
same name as the stored one (News) but a different remaining time (300
instead of the stored 900) leaves both the stored remaining time and the
last-update timestamp untouched, refuting the claim that the
remaining-time comparison runs independently of the name change. -/
theorem remaining_time_not_updated_when_name_unchanged :
    pollSameName.program = Except.ok (some progNews300) ∧
    sNews.currentProgram = progNews300.name ∧
    progNews300.remaining ≠ sNews.mediaRemainingTime ∧
    (async_update sNews pollSameName).1.mediaRemainingTime
      = sNews.mediaRemainingTime ∧
    (async_update sNews pollSameName).1.mediaLastUpdated
      = sNews.mediaLastUpdated := by
  refine ⟨rfl, rfl, by decide, rfl, rfl⟩

/-- C3 (amended): the remaining time is recomputed only as part of a
program-name change.  On a successful poll with a tuned channel and
fetched program metadata: if the fetched name equals the stored one, the
stored remaining time and the last-update timestamp keep their pre-poll
values; if the name differs and the fetched remaining time differs from
the stored value, both the stored remaining time and the timestamp are
updated. -/
theorem remaining_time_update_requires_name_change (s : TrackerState)
    (d : DevicePoll) (st : PState) (cat : List (Int × String)) (c : String)
    (p : Program) (pi : Option String)
    (h1 : refresh_state d = Except.ok st)
    (h2 : d.channels = Except.ok cat)
    (h3 : d.channel = Except.ok (some c))
    (h4 : d.program = Except.ok (some p))
    (h5 : d.programImage img_size = Except.ok pi)
    (h6 : pyTruthy pi = true) :
    (s.currentProgram = p.name →
      (async_update s d).1.mediaRemainingTime = s.mediaRemainingTime ∧
      (async_update s d).1.mediaLastUpdated = s.mediaLastUpdated) ∧
    (s.currentProgram ≠ p.name → p.remaining ≠ s.mediaRemainingTime →
      (async_update s d).1.mediaRemainingTime = p.remaining ∧
      (async_update s d).1.mediaLastUpdated = some d.now) := by
  rw [asyncUpdate_ok_channel s d st cat c (some p) pi h1 h2 h3 h4 h5 h6]
  constructor
  · intro hname
    simp [programUpdate, hname]
  · intro hname hrt
    simp [programUpdate, hname, hrt]

/-- Witness for the amended C3: with stored program News and remaining
time 900, a poll fetching News with remaining 300 changes neither field,
while a poll fetching Doc with remaining 450 updates both. -/
theorem remaining_time_update_requires_name_change_witness :
    ((async_update sNews pollSameName).1.mediaRemainingTime
        = sNews.mediaRemainingTime ∧
      (async_update sNews pollSameName).1.mediaLastUpdated
        = sNews.mediaLastUpdated) ∧
    ((async_update sNews pollNewTime).1.mediaRemainingTime
        = progDoc450.remaining ∧
      (async_update sNews pollNewTime).1.mediaLastUpdated
        = some pollNewTime.now) :=
  ⟨(remaining_time_update_requires_name_change sNews pollSameName
      PState.playing [(5, "Five")] "5" progNews300 (some "img")
      rfl rfl rfl rfl rfl rfl).1 rfl,
   (remaining_time_update_requires_name_change sNews pollNewTime
      PState.playing [(5, "Five")] "5" progDoc450 (some "img")
      rfl rfl rfl rfl rfl rfl).2 (by decide) (by decide)⟩

/-- C6: for a channel list rebuilt from any device catalog, in any order,
the source list enumerates the channel names along a strictly ascending
sequence of channel indices that is a permutation of the dict keys. -/
theorem source_list_sorted_ascending (catalog : List (Int × String))
    (s : TrackerState) (h : s.channelList = refresh_channel_list catalog) :
    ∃ ks : List Int,
      List.Sorted (fun a b : Int => a < b) ks ∧
      ks.Perm (dictKeys s.channelList) ∧
      source_list s = ks.map (dictGet s.channelList) := by
  refine ⟨(dictKeys s.channelList).mergeSort (fun a b => a ≤ b), ?_, ?_, rfl⟩
  · have hle : List.Sorted (fun a b : Int => a ≤ b)
        ((dictKeys s.channelList).mergeSort (fun a b => a ≤ b)) :=
      List.sorted_mergeSort' (dictKeys s.channelList)
    have hperm := List.mergeSort_perm (dictKeys s.channelList)
      (fun a b => a ≤ b)
    have hnd : ((dictKeys s.channelList).mergeSort
        (fun a b => a ≤ b)).Nodup :=
      hperm.symm.nodup (h ▸ nodup_keys_refresh_channel_list catalog)
    exact hle.lt_of_le hnd
  · exact List.mergeSort_perm _ _

/-- Witness for C6 at a catalog given out of index order. -/
theorem source_list_sorted_ascending_witness :
    ∃ ks : List Int,
      List.Sorted (fun a b : Int => a < b) ks ∧
      ks.Perm (dictKeys ({ (initState "livebox") with
        channelList := refresh_channel_list catalogEx } :
          TrackerState).channelList) ∧
      source_list ({ (initState "livebox") with
        channelList := refresh_channel_list catalogEx } : TrackerState)
        = ks.map (dictGet ({ (initState "livebox") with
            channelList := refresh_channel_list catalogEx } :
              TrackerState).channelList) :=
  source_list_sorted_ascending catalogEx
    ({ (initState "livebox") with
       channelList := refresh_channel_list catalogEx }) rfl

/-- C7: on a successful poll with a tuned channel whose fetched program
name differs from the stored one while the fetched remaining time equals
the stored one, the program name and the media duration are recomputed
from the fetched metadata and the last-update timestamp (and the stored
remaining time) are left unchanged. -/
theorem name_change_updates_duration_not_timestamp (s : TrackerState)
    (d : DevicePoll) (st : PState) (cat : List (Int × String)) (c : String)
    (p : Program) (pi : Option String)
    (h1 : refresh_state d = Except.ok st)
    (h2 : d.channels = Except.ok cat)
    (h3 : d.channel = Except.ok (some c))
    (h4 : d.program = Except.ok (some p))
    (h5 : d.programImage img_size = Except.ok pi)
    (h6 : pyTruthy pi = true)
    (hname : s.currentProgram ≠ p.name)
    (hrt : p.remaining = s.mediaRemainingTime) :
    (async_update s d).1.currentProgram = p.name ∧
    (async_update s d).1.mediaDuration = p.duration ∧
    (async_update s d).1.mediaRemainingTime = s.mediaRemainingTime ∧
    (async_update s d).1.mediaLastUpdated = s.mediaLastUpdated := by
  rw [asyncUpdate_ok_channel s d st cat c (some p) pi h1 h2 h3 h4 h5 h6]
  simp [programUpdate, hname, hrt]

/-- Witness for C7: with stored program News, remaining 900 and timestamp
10, a poll fetching Film with the same remaining time 900 installs the new
name and duration 5400 while keeping timestamp 10. -/
theorem name_change_updates_duration_not_timestamp_witness :
    (async_update sNews pollNewName).1.currentProgram = progFilm900.name ∧
    (async_update sNews pollNewName).1.mediaDuration = progFilm900.duration ∧
    (async_update sNews pollNewName).1.mediaRemainingTime
      = sNews.mediaRemainingTime ∧
    (async_update sNews pollNewName).1.mediaLastUpdated
      = sNews.mediaLastUpdated :=
  name_change_updates_duration_not_timestamp sNews pollNewName
    PState.playing [(5, "Five")] "5" progFilm900 (some "img")
    rfl rfl rfl rfl rfl rfl (by decide) rfl

/-- C8: a poll in which steps 1 and 2 succeed and the device reports no
tuned channel leaves the current channel, program name, duration,
remaining time, artwork URL and last-update timestamp at their pre-poll
values; only the state and the channel list are written. -/
theorem null_channel_preserves_media_fields (s : TrackerState)
    (d : DevicePoll) (st : PState) (cat : List (Int × String))
    (h1 : refresh_state d = Except.ok st)
    (h2 : d.channels = Except.ok cat)
    (h3 : d.channel = Except.ok none) :
    (async_update s d).1.currentChannel = s.currentChannel ∧
    (async_update s d).1.currentProgram = s.currentProgram ∧
    (async_update s d).1.mediaDuration = s.mediaDuration ∧
    (async_update s d).1.mediaRemainingTime = s.mediaRemainingTime ∧
    (async_update s d).1.mediaImageUrl = s.mediaImageUrl ∧
    (async_update s d).1.mediaLastUpdated = s.mediaLastUpdated ∧
    (async_update s d).1.state = some st ∧
    (async_update s d).1.channelList = refresh_channel_list cat ∧
    (async_update s d).2 = none := by
  simp [async_update, asyncUpdateBody, h1, h2, h3]

/-- Witness for C8 at a tracker holding a full media session and a poll
reporting a null tuned channel. -/
theorem null_channel_preserves_media_fields_witness :
    (async_update sNews pollNullChannel).1.currentChannel
      = sNews.currentChannel ∧
    (async_update sNews pollNullChannel).1.currentProgram
      = sNews.currentProgram ∧
    (async_update sNews pollNullChannel).1.mediaRemainingTime
      = sNews.mediaRemainingTime ∧
    (async_update sNews pollNullChannel).1.mediaLastUpdated
      = sNews.mediaLastUpdated :=
  ⟨(null_channel_preserves_media_fields sNews pollNullChannel
      PState.playing [(5, "Five")] rfl rfl rfl).1,
   (null_channel_preserves_media_fields sNews pollNullChannel
      PState.playing [(5, "Five")] rfl rfl rfl).2.1,
   (null_channel_preserves_media_fields sNews pollNullChannel
      PState.playing [(5, "Five")] rfl rfl rfl).2.2.2.1,
   (null_channel_preserves_media_fields sNews pollNullChannel
      PState.playing [(5, "Five")] rfl rfl rfl).2.2.2.2.2.1⟩

/-- C9: on every successful poll with a tuned channel the stored artwork
URL is overwritten with the result of this poll, whatever the program
metadata was: the program thumbnail at the fixed size when the lookup
returns a truthy URL, otherwise the channel logo at the same size. -/
theorem artwork_overwritten_every_poll (s : TrackerState) (d : DevicePoll)
    (st : PState) (cat : List (Int × String)) (c : String)
    (prog : Option Program)
    (h1 : refresh_state d = Except.ok st)
    (h2 : d.channels = Except.ok cat)
    (h3 : d.channel = Except.ok (some c))
    (h4 : d.program = Except.ok prog) :
    (∀ pi : Option String, d.programImage img_size = Except.ok pi →
      pyTruthy pi = true → (async_update s d).1.mediaImageUrl = pi) ∧
    (∀ pi ci : Option String, d.programImage img_size = Except.ok pi →
      pyTruthy pi = false → d.channelImage img_size = Except.ok ci →
      (async_update s d).1.mediaImageUrl = ci) := by
  constructor
  · intro pi h5 h6
    rw [asyncUpdate_ok_channel s d st cat c prog pi h1 h2 h3 h4 h5 h6]
  · intro pi ci h5 h6 h7
    rw [asyncUpdate_ok_channel_fallback s d st cat c prog pi ci
      h1 h2 h3 h4 h5 h6 h7]

/-- Witness for C9: with unchanged program fields, a truthy program
thumbnail is installed as the artwork URL, and with no thumbnail the
channel logo is installed instead. -/
theorem artwork_overwritten_every_poll_witness :
    (async_update sNews pollSameName).1.mediaImageUrl = some "img" ∧
    (async_update sNews pollNoProgImg).1.mediaImageUrl = some "chan.png" :=
  ⟨(artwork_overwritten_every_poll sNews pollSameName PState.playing
      [(5, "Five")] "5" (some progNews300) rfl rfl rfl rfl).1
      (some "img") rfl rfl,
   (artwork_overwritten_every_poll sNews pollNoProgImg PState.playing
      [(5, "Five")] "5" (some progNews300) rfl rfl rfl rfl).2
      none (some "chan.png") rfl rfl rfl⟩

end LiveboxPlayTv
